import Mathlib

/-!
Shallow embedding of the student-records backend (`src/main.py`).

The backend is a small HTTP service that stores student record rows in a
Google Sheet living inside a well-known Drive folder.  We model the external
Drive/Sheets backend as an explicit `World` state, the stored OAuth user
credential as an `Option UserCred`, the process environment and the external
refresh outcome as an `Env` record, and every route handler as a pure
function returning the HTTP response, the updated credential slot, the
updated world, and a trace of the outbound network operations it performed.
-/

namespace StudentRecords

/-- The apostrophe character, used in the folder name constant. -/
def apos : Char := Char.ofNat 39

/-- `FOLDER_NAME` from the source (main.py line 37). -/
def FOLDER_NAME : String := "Don" ++ apos.toString ++ "t_Delete_This"

/-- `SHEET_TITLE` from the source (main.py line 38). -/
def SHEET_TITLE : String := "Student_Records"

/-- `HEADER` from the source (main.py line 39). -/
def HEADER : List String := ["Name", "Class", "Roll No", "Subject", "Saved At"]

/-- Drive mime type for folders, as used in the source queries. -/
def folderMime : String := "application/vnd.google-apps.folder"

/-- Drive mime type for spreadsheets, as used in the source queries. -/
def sheetMime : String := "application/vnd.google-apps.spreadsheet"

/-- A file known to the Drive backend. -/
structure DriveFile where
  id : Nat
  name : String
  mimeType : String
  parents : List Nat
  trashed : Bool
deriving Repr, DecidableEq

/-- The id of the default parent (the My Drive root) that the backend
assigns to a newly created file. -/
def rootParent : Nat := 0

/-- The state of the external Drive/Sheets backend: the Drive files, the
grids of the spreadsheets (keyed by spreadsheet id), and a counter from
which fresh ids are drawn. -/
structure World where
  files : List DriveFile
  sheets : List (Nat × List (List String))
  nextId : Nat
deriving Repr, DecidableEq

/-- One outbound network operation performed by the service. -/
inductive Op where
  | refreshCall
  | driveList
  | driveCreate
  | sheetsCreate
  | driveUpdate
  | valuesUpdate
  | valuesAppend (rows : List (List String))
  | valuesGet
deriving Repr, DecidableEq

/-- Whether an operation is a values append call. -/
def isAppendOp : Op → Bool
  | Op.valuesAppend _ => true
  | _ => false

/-- The stored OAuth user credential (`OAUTH_CREDS`): validity flag,
expiry flag and presence of a refresh token, as the resolver reads them. -/
structure UserCred where
  valid : Bool
  expired : Bool
  refresh_token : Bool
deriving Repr, DecidableEq

/-- The credential a resolution produces: either the user credential or a
service-account credential built from the environment secret. -/
inductive Cred where
  | user (c : UserCred)
  | service
deriving Repr, DecidableEq

/-- The ambient environment of a request: the
`GOOGLE_SERVICE_ACCOUNT_JSON` variable, the outcome of an in-place token
refresh (`none` means the refresh call raises), and the value
`datetime.utcnow().isoformat()` returns during the request. -/
structure Env where
  sa_json : Option String
  refreshResult : Option UserCred
  now : String
deriving Repr, DecidableEq

/-- A raised `HTTPException`: status code and detail. -/
structure HErr where
  status : Nat
  detail : String
deriving Repr, DecidableEq

/-- Starlette renders `str(HTTPException(s, d))` as `"s: d"`; the blanket
`except Exception` handlers feed this string into a fresh 500 error. -/
def strHTTPException (e : HErr) : String := toString e.status ++ ": " ++ e.detail

/-- The detail of the 401 raised when no credential source is available
(main.py line 72). -/
def unauthorizedDetail : String :=
  "Google not connected. Either sign in with Google or set GOOGLE_SERVICE_ACCOUNT_JSON."

/-- The service-account fallback (main.py lines 69-79): fails with a 401
`HTTPException` when the environment variable is unset or empty, succeeds
otherwise. -/
def saLookup (env : Env) : Except HErr Cred :=
  match env.sa_json with
  | some s => if s = "" then Except.error ⟨401, unauthorizedDetail⟩ else Except.ok Cred.service
  | none => Except.error ⟨401, unauthorizedDetail⟩

/-- `get_google_services` (main.py lines 45-79).  Returns the resolved
credential (or the raised 401), the new content of the `OAUTH_CREDS` slot,
and the trace of network calls (a refresh attempt when one is made).
Order: (1) stored credential if valid; (2) refresh in place when expired
with a refresh token, swallowing failure; (3) service account from the
environment; otherwise raise 401. -/
def get_google_services (oauth : Option UserCred) (env : Env) :
    Except HErr Cred × Option UserCred × List Op :=
  match oauth with
  | some c =>
    if c.valid then (Except.ok (Cred.user c), some c, [])
    else if c.expired && c.refresh_token then
      match env.refreshResult with
      | some c2 => (Except.ok (Cred.user c2), some c2, [Op.refreshCall])
      | none => (saLookup env, some c, [Op.refreshCall])
    else (saLookup env, some c, [])
  | none => (saLookup env, none, [])

/-- The Drive query of `ensure_folder` (main.py line 84). -/
def folderQuery (f : DriveFile) : Bool :=
  f.name == FOLDER_NAME && f.mimeType == folderMime && !f.trashed

/-- `ensure_folder` (main.py lines 82-95): look the folder up by name; if
found return the first match's id, else create the folder (with the default
parent) and return its fresh id. -/
def ensure_folder (w : World) : Nat × World × List Op :=
  match w.files.filter folderQuery with
  | f :: _ => (f.id, w, [Op.driveList])
  | [] =>
    let fid := w.nextId
    let nf : DriveFile :=
      { id := fid, name := FOLDER_NAME, mimeType := folderMime
        parents := [rootParent], trashed := false }
    (fid, { w with files := w.files ++ [nf], nextId := w.nextId + 1 },
      [Op.driveList, Op.driveCreate])

/-- The Drive query of `ensure_sheet_in_folder` (main.py line 100). -/
def sheetQuery (folder_id : Nat) (f : DriveFile) : Bool :=
  f.name == SHEET_TITLE && f.mimeType == sheetMime && f.parents.contains folder_id && !f.trashed

/-- `drive_service.files().update(fileId, addParents, removeParents)`:
drops the parents listed in `removeP` and appends those in `addP`. -/
def updateParents (w : World) (fileId : Nat) (addP : List Nat) (removeP : List Nat) : World :=
  { w with files := w.files.map (fun f =>
      if f.id = fileId then
        { f with parents := f.parents.filter (fun p => !(removeP.contains p)) ++ addP }
      else f) }

/-- Write a row into the first row of a grid (`values().update` on range
`A1:E1`, main.py lines 114-119). -/
def setRow1 (grid : List (List String)) (row : List String) : List (List String) :=
  match grid with
  | [] => [row]
  | _ :: rest => row :: rest

/-- Apply `setRow1` to the spreadsheet with the given id. -/
def sheetsUpdateRow1 (w : World) (sid : Nat) (row : List String) : World :=
  { w with sheets := w.sheets.map (fun p => if p.1 = sid then (p.1, setRow1 p.2 row) else p) }

/-- `ensure_sheet_in_folder` (main.py lines 98-120): look the sheet up by
name and parent; if found return the first match's id, else create a fresh
spreadsheet (empty grid, default parent), update its parents with
`addParents = folder_id` and `removeParents = ""` (so nothing is removed),
write the header into row 1, and return the fresh id. -/
def ensure_sheet_in_folder (w : World) (folder_id : Nat) : Nat × World × List Op :=
  match w.files.filter (sheetQuery folder_id) with
  | f :: _ => (f.id, w, [Op.driveList])
  | [] =>
    let sid := w.nextId
    let nf : DriveFile :=
      { id := sid, name := SHEET_TITLE, mimeType := sheetMime
        parents := [rootParent], trashed := false }
    let w1 : World :=
      { w with files := w.files ++ [nf], sheets := w.sheets ++ [(sid, [])]
               nextId := w.nextId + 1 }
    let w2 := updateParents w1 sid [folder_id] []
    let w3 := sheetsUpdateRow1 w2 sid HEADER
    (sid, w3, [Op.driveList, Op.sheetsCreate, Op.driveUpdate, Op.valuesUpdate])

/-- `values().append` with `INSERT_ROWS` on the sheet with the given id:
rows are appended after the existing content. -/
def valuesAppendW (w : World) (sid : Nat) (rows : List (List String)) : World :=
  { w with sheets := w.sheets.map (fun p => if p.1 = sid then (p.1, p.2 ++ rows) else p) }

/-- `values().get` on range `A2:E`: the grid of the sheet minus the header
row, each row restricted to columns A..E. -/
def valuesGetData (w : World) (sid : Nat) : List (List String) :=
  match w.sheets.find? (fun p => p.1 = sid) with
  | some p => (p.2.drop 1).map (fun r => r.take 5)
  | none => []

/-- The request body of the record endpoints (`Record` model,
main.py lines 126-133): four text fields. -/
structure Rec where
  name : String
  klass : String
  rollno : String
  subject : String
deriving Repr, DecidableEq

/-- A field passes its `min_length=1` constraint. -/
def minLen1 (s : String) : Bool := decide (1 ≤ s.length)

/-- Pydantic validation of a `Record` body: all four fields have
`min_length=1`. -/
def recValid (r : Rec) : Bool :=
  minLen1 r.name && minLen1 r.klass && minLen1 r.rollno && minLen1 r.subject

/-- An HTTP response: either the endpoint's success payload or an error
status with a detail string. -/
inductive Resp (α : Type) where
  | ok (a : α)
  | err (status : Nat) (detail : String)
deriving Repr, DecidableEq

/-- The detail FastAPI attaches to a 422 request-validation failure
(abstracted to a fixed string; only the status matters here). -/
def validationDetail : String := "request validation error"

/-- The row built for one record (main.py line 260 / 285). -/
def rowOf (now : String) (r : Rec) : List String :=
  [r.name, r.klass, r.rollno, r.subject, now]

/-- Body of `add_record` (main.py lines 253-272), after request
validation.  A raised `HTTPException` (here only the resolver's 401) is
caught by the blanket `except Exception` and re-raised as a 500 whose
detail is the string form of the original exception. -/
def add_record (r : Rec) (oauth : Option UserCred) (env : Env) (w : World) :
    Resp String × Option UserCred × World × List Op :=
  let g := get_google_services oauth env
  match g.1 with
  | Except.error e => (Resp.err 500 (strHTTPException e), g.2.1, w, g.2.2)
  | Except.ok _ =>
    let ef := ensure_folder w
    let es := ensure_sheet_in_folder ef.2.1 ef.1
    let row := rowOf env.now r
    (Resp.ok "saved", g.2.1, valuesAppendW es.2.1 es.1 [row],
      g.2.2 ++ ef.2.2 ++ es.2.2 ++ [Op.valuesAppend [row]])

/-- The `POST /api/records` endpoint: FastAPI rejects a body failing the
model validation with a 422 before the handler body runs. -/
def api_add_record (r : Rec) (oauth : Option UserCred) (env : Env) (w : World) :
    Resp String × Option UserCred × World × List Op :=
  if recValid r then add_record r oauth env w
  else (Resp.err 422 validationDetail, oauth, w, [])

/-- Body of `add_records` (main.py lines 275-297), after request
validation.  The `HTTPException(400)` raised for an empty list is itself
caught by the blanket `except Exception` of the same handler and re-raised
as a 500 carrying the 400's string form. -/
def add_records (batch : List Rec) (oauth : Option UserCred) (env : Env) (w : World) :
    Resp (String × Nat) × Option UserCred × World × List Op :=
  if batch.isEmpty then
    (Resp.err 500 (strHTTPException ⟨400, "No records provided"⟩), oauth, w, [])
  else
    let g := get_google_services oauth env
    match g.1 with
    | Except.error e => (Resp.err 500 (strHTTPException e), g.2.1, w, g.2.2)
    | Except.ok _ =>
      let ef := ensure_folder w
      let es := ensure_sheet_in_folder ef.2.1 ef.1
      let values := batch.map (rowOf env.now)
      (Resp.ok ("saved", values.length), g.2.1, valuesAppendW es.2.1 es.1 values,
        g.2.2 ++ ef.2.2 ++ es.2.2 ++ [Op.valuesAppend values])

/-- The `POST /api/records/batch` endpoint: every element of `records`
must pass the `Record` validation (an empty list passes). -/
def api_add_records (batch : List Rec) (oauth : Option UserCred) (env : Env) (w : World) :
    Resp (String × Nat) × Option UserCred × World × List Op :=
  if batch.all recValid then add_records batch oauth env w
  else (Resp.err 422 validationDetail, oauth, w, [])

/-- One item of the `GET /api/records` response (main.py line 309):
positional reconstruction, absent trailing cells become `""`. -/
structure RecOut where
  name : String
  klass : String
  rollno : String
  subject : String
  saved_at : String
deriving Repr, DecidableEq

/-- Reconstruct one response item from a sheet row. -/
def padRow (r : List String) : RecOut :=
  ⟨r.getD 0 "", r.getD 1 "", r.getD 2 "", r.getD 3 "", r.getD 4 ""⟩

/-- `list_records` (main.py lines 300-316): resolve, provision, read
`A2:E`, reconstruct each row positionally. -/
def list_records (oauth : Option UserCred) (env : Env) (w : World) :
    Resp (List RecOut) × Option UserCred × World × List Op :=
  let g := get_google_services oauth env
  match g.1 with
  | Except.error e => (Resp.err 500 (strHTTPException e), g.2.1, w, g.2.2)
  | Except.ok _ =>
    let ef := ensure_folder w
    let es := ensure_sheet_in_folder ef.2.1 ef.1
    let vals := valuesGetData es.2.1 es.1
    (Resp.ok (vals.map padRow), g.2.1, es.2.1, g.2.2 ++ ef.2.2 ++ es.2.2 ++ [Op.valuesGet])

/-- `GET /test` (main.py lines 240-250): resolve, provision, return the
folder id and sheet id. -/
def test_services (oauth : Option UserCred) (env : Env) (w : World) :
    Resp (Nat × Nat) × Option UserCred × World × List Op :=
  let g := get_google_services oauth env
  match g.1 with
  | Except.error e => (Resp.err 500 (strHTTPException e), g.2.1, w, g.2.2)
  | Except.ok _ =>
    let ef := ensure_folder w
    let es := ensure_sheet_in_folder ef.2.1 ef.1
    (Resp.ok (ef.1, es.1), g.2.1, es.2.1, g.2.2 ++ ef.2.2 ++ es.2.2)

/-- `GET /auth/status` (main.py lines 214-217):
`bool(OAUTH_CREDS and OAUTH_CREDS.valid)`. -/
def auth_status (oauth : Option UserCred) : Bool :=
  match oauth with
  | some c => c.valid
  | none => false

/-- `POST /auth/logout` (main.py lines 220-224): clear the credential
slot and answer `{ok: true}`. -/
def auth_logout (_oauth : Option UserCred) : Option UserCred × Bool :=
  (none, true)

/-- The environment of the OAuth callback: whether the OAuth client is
configured (id and secret present) and the outcome of the token exchange
`flow.fetch_token` performs for the incoming request
(`Except.error msg` models the exchange raising). -/
structure CallbackEnv where
  flowConfigured : Bool
  fetchTokenResult : Except String UserCred
deriving Repr

/-- The success page returned by the callback. -/
def callbackSuccessHtml : String := "Google account connected"

/-- `GET /auth/google/callback` (main.py lines 189-211).  The stored
anti-forgery state is read into a local (main.py line 194) but never
compared against anything; every failure path returns an HTML 400 page. -/
def google_oauth_callback (storedState : Option String) (cenv : CallbackEnv)
    (oauth : Option UserCred) : Resp String × Option UserCred :=
  let _state := storedState
  if cenv.flowConfigured then
    match cenv.fetchTokenResult with
    | Except.ok creds => (Resp.ok callbackSuccessHtml, some creds)
    | Except.error msg => (Resp.err 400 ("OAuth error: " ++ msg), oauth)
  else
    (Resp.err 400
      ("OAuth error: " ++ strHTTPException
        ⟨500, "OAuth client not configured. Set GOOGLE_OAUTH_CLIENT_ID and GOOGLE_OAUTH_CLIENT_SECRET."⟩),
      oauth)

/-- Well-formedness of a backend state: every existing file id and sheet
key is below the fresh-id counter. -/
def WF (w : World) : Prop :=
  (∀ f ∈ w.files, f.id < w.nextId) ∧ (∀ p ∈ w.sheets, p.1 < w.nextId)

instance (w : World) : Decidable (WF w) := by
  unfold WF; infer_instance

/-! ### Helper lemmas -/

/-- Mapping a function that fixes every element of a list is the
identity. -/
lemma map_preserve {α : Type} (g : α → α) (l : List α) (h : ∀ a ∈ l, g a = a) :
    l.map g = l := by
  induction l with
  | nil => rfl
  | cons a t ih =>
    simp only [List.map_cons, h a (List.mem_cons_self a t)]
    exact congrArg _ (ih fun b hb => h b (List.mem_cons_of_mem a hb))

/-- The file created in the creation branch of `ensure_folder`. -/
def newFolderFile (fid : Nat) : DriveFile :=
  { id := fid, name := FOLDER_NAME, mimeType := folderMime
    parents := [rootParent], trashed := false }

/-- The file the creation branch of `ensure_sheet_in_folder` leaves in
Drive after the parents update: the default parent is still there because
`removeParents` is empty. -/
def newSheetFile (sid folder_id : Nat) : DriveFile :=
  { id := sid, name := SHEET_TITLE, mimeType := sheetMime
    parents := [rootParent, folder_id], trashed := false }

/-- Lookup branch of `ensure_folder`. -/
lemma ensure_folder_found (w : World) (f : DriveFile) (l : List DriveFile)
    (h : w.files.filter folderQuery = f :: l) :
    ensure_folder w = (f.id, w, [Op.driveList]) := by
  unfold ensure_folder
  rw [h]

/-- Creation branch of `ensure_folder`. -/
lemma ensure_folder_create (w : World) (h : w.files.filter folderQuery = []) :
    ensure_folder w =
      (w.nextId,
       { w with files := w.files ++ [newFolderFile w.nextId], nextId := w.nextId + 1 },
       [Op.driveList, Op.driveCreate]) := by
  unfold ensure_folder
  rw [h]
  rfl

/-- Lookup branch of `ensure_sheet_in_folder`. -/
lemma ensure_sheet_found (w : World) (folder_id : Nat) (f : DriveFile) (l : List DriveFile)
    (h : w.files.filter (sheetQuery folder_id) = f :: l) :
    ensure_sheet_in_folder w folder_id = (f.id, w, [Op.driveList]) := by
  unfold ensure_sheet_in_folder
  rw [h]

/-- Creation branch of `ensure_sheet_in_folder`, on a well-formed world:
the fresh spreadsheet ends with parents `[rootParent, folder_id]` and grid
`[HEADER]`, everything else untouched. -/
lemma ensure_sheet_create (w : World) (folder_id : Nat) (hwf : WF w)
    (h : w.files.filter (sheetQuery folder_id) = []) :
    ensure_sheet_in_folder w folder_id =
      (w.nextId,
       { files := w.files ++ [newSheetFile w.nextId folder_id]
         sheets := w.sheets ++ [(w.nextId, [HEADER])]
         nextId := w.nextId + 1 },
       [Op.driveList, Op.sheetsCreate, Op.driveUpdate, Op.valuesUpdate]) := by
  have hf : w.files.map (fun f =>
      if f.id = w.nextId then
        { f with parents := f.parents.filter (fun p => !(([] : List Nat).contains p)) ++ [folder_id] }
      else f) = w.files :=
    map_preserve _ _ fun f hf => by
      simp [Nat.ne_of_lt (hwf.1 f hf)]
  have hs : w.sheets.map (fun p => if p.1 = w.nextId then (p.1, setRow1 p.2 HEADER) else p)
      = w.sheets :=
    map_preserve _ _ fun p hp => by
      simp [Nat.ne_of_lt (hwf.2 p hp)]
  unfold ensure_sheet_in_folder
  rw [h]
  simp only [updateParents, sheetsUpdateRow1, List.map_append, hf, hs]
  simp [newSheetFile, setRow1, rootParent]

/-- A world holding just the target folder (id 1) and nothing else. -/
def w2ex : World :=
  ⟨[⟨1, FOLDER_NAME, folderMime, [rootParent], false⟩], [], 2⟩

/-! ### Claim theorems -/

/-- C1: the code raises `HTTPException(400)` for an empty batch, but that
exception is caught by the same handler's blanket `except Exception` and
re-raised as a 500 whose detail is the 400's string form.  The response
is therefore 500, not 400 as claimed; no network or spreadsheet call is
performed and the backing state is unchanged. -/
theorem empty_batch_rewrapped_as_500 (oauth : Option UserCred) (env : Env) (w : World) :
    api_add_records [] oauth env w =
      (Resp.err 500 "400: No records provided", oauth, w, []) := rfl

/-- C2 counterexample: starting from a world holding only the folder
(id 1), the creation branch of `ensure_sheet_in_folder` leaves the new
spreadsheet (id 2) with parents `[rootParent, 1]`: the default parent is
NOT detached, because the update passes an empty `removeParents`. -/
theorem sheet_creation_retains_default_parent :
    (ensure_sheet_in_folder w2ex 1).1 = 2 ∧
    ∃ f ∈ (ensure_sheet_in_folder w2ex 1).2.1.files,
      f.id = 2 ∧ f.parents = [rootParent, 1] := by decide

/-- C2 (amended): in the creation branch (no existing spreadsheet named
`Student_Records` with parent `folder_id`, well-formed world), the
operation creates a new spreadsheet, adds `folder_id` to its parents
WITHOUT removing the default parent (the update passes an empty
`removeParents`), writes the header row into the first row, and returns
the new spreadsheet's identifier (the fresh id). -/
theorem ensure_sheet_creation_branch (w : World) (folder_id : Nat) (hwf : WF w)
    (h : w.files.filter (sheetQuery folder_id) = []) :
    (ensure_sheet_in_folder w folder_id).1 = w.nextId ∧
    (ensure_sheet_in_folder w folder_id).2.1.files
      = w.files ++ [newSheetFile w.nextId folder_id] ∧
    (newSheetFile w.nextId folder_id).parents = [rootParent, folder_id] ∧
    (ensure_sheet_in_folder w folder_id).2.1.sheets
      = w.sheets ++ [(w.nextId, [HEADER])] ∧
    (ensure_sheet_in_folder w folder_id).2.2
      = [Op.driveList, Op.sheetsCreate, Op.driveUpdate, Op.valuesUpdate] := by
  rw [ensure_sheet_create w folder_id hwf h]
  exact ⟨rfl, rfl, rfl, rfl, rfl⟩

/-- Witness for C2's amended theorem at the concrete world `w2ex`. -/
theorem ensure_sheet_creation_branch_witness :
    (ensure_sheet_in_folder w2ex 1).1 = w2ex.nextId :=
  (ensure_sheet_creation_branch w2ex 1 (by decide) (by decide)).1

/-- C4: the credential resolver's exact preference order: (1) the stored
user credential when valid; (2) when stored, expired and refreshable, the
in-place refreshed credential, a refresh failure being swallowed so
control falls to the service-account path with the slot unchanged;
(3) otherwise the service-account fallback, which succeeds on a non-empty
environment secret and raises 401 when the secret is absent or empty. -/
theorem credential_preference_order (env : Env) :
    (∀ c : UserCred, c.valid = true →
        get_google_services (some c) env = (Except.ok (Cred.user c), some c, [])) ∧
    (∀ c c2 : UserCred, c.valid = false → c.expired = true → c.refresh_token = true →
        env.refreshResult = some c2 →
        get_google_services (some c) env
          = (Except.ok (Cred.user c2), some c2, [Op.refreshCall])) ∧
    (∀ c : UserCred, c.valid = false → c.expired = true → c.refresh_token = true →
        env.refreshResult = none →
        get_google_services (some c) env = (saLookup env, some c, [Op.refreshCall])) ∧
    (∀ c : UserCred, c.valid = false → (c.expired = false ∨ c.refresh_token = false) →
        get_google_services (some c) env = (saLookup env, some c, [])) ∧
    get_google_services none env = (saLookup env, none, []) ∧
    (∀ s, env.sa_json = some s → s ≠ "" → saLookup env = Except.ok Cred.service) ∧
    ((env.sa_json = none ∨ env.sa_json = some "") →
        saLookup env = Except.error ⟨401, unauthorizedDetail⟩) := by
  refine ⟨?_, ?_, ?_, ?_, rfl, ?_, ?_⟩
  · intro c hv; simp [get_google_services, hv]
  · intro c c2 hv he hr hres; simp [get_google_services, hv, he, hr, hres]
  · intro c hv he hr hres; simp [get_google_services, hv, he, hr, hres]
  · intro c hv hor
    rcases hor with he | hr
    · simp [get_google_services, hv, he]
    · simp [get_google_services, hv, hr]
  · intro s hs hne; simp [saLookup, hs, hne]
  · intro hor
    rcases hor with hn | he
    · simp [saLookup, hn]
    · simp [saLookup, he]

/-- Witness for C4 at a concrete environment and a valid stored
credential. -/
theorem credential_preference_order_witness :
    get_google_services (some ⟨true, false, false⟩) ⟨none, none, "T"⟩
      = (Except.ok (Cred.user ⟨true, false, false⟩), some ⟨true, false, false⟩, []) :=
  (credential_preference_order ⟨none, none, "T"⟩).1 ⟨true, false, false⟩ rfl

/-- The 401 detail as the blanket handlers re-wrap it into a 500. -/
def unauthorizedWrapped : String := strHTTPException ⟨401, unauthorizedDetail⟩

/-- The credential resolver's own trace never contains an append call. -/
lemma ggs_trace_no_append (oauth : Option UserCred) (env : Env) :
    (get_google_services oauth env).2.2.filter isAppendOp = [] := by
  cases oauth with
  | none => rfl
  | some c =>
    cases hv : c.valid <;> cases he : c.expired <;> cases hr : c.refresh_token <;>
      cases hres : env.refreshResult <;>
      simp [get_google_services, hv, he, hr, hres, isAppendOp]

/-- `ensure_folder`'s trace never contains an append call. -/
lemma ensure_folder_trace_no_append (w : World) :
    (ensure_folder w).2.2.filter isAppendOp = [] := by
  unfold ensure_folder
  cases w.files.filter folderQuery <;> rfl

/-- `ensure_sheet_in_folder`'s trace never contains an append call. -/
lemma ensure_sheet_trace_no_append (w : World) (folder_id : Nat) :
    (ensure_sheet_in_folder w folder_id).2.2.filter isAppendOp = [] := by
  unfold ensure_sheet_in_folder
  cases w.files.filter (sheetQuery folder_id) <;> rfl

/-- C3: with no stored user credential and no configured service secret,
each of the four data operations fails with the resolver's 401
Unauthorized, re-wrapped by the handler boundary into a 500 response
(status within the claimed 401/500); no network call is made and the
backing state and credential slot are unchanged. -/
theorem no_credentials_all_ops_unauthorized (r : Rec) (batch : List Rec) (env : Env)
    (w : World) (hsa : env.sa_json = none) (hr : recValid r = true)
    (hb : batch ≠ []) (hbv : batch.all recValid = true) :
    api_add_record r none env w = (Resp.err 500 unauthorizedWrapped, none, w, []) ∧
    api_add_records batch none env w = (Resp.err 500 unauthorizedWrapped, none, w, []) ∧
    list_records none env w = (Resp.err 500 unauthorizedWrapped, none, w, []) ∧
    test_services none env w = (Resp.err 500 unauthorizedWrapped, none, w, []) := by
  have hg : get_google_services none env
      = (Except.error ⟨401, unauthorizedDetail⟩, none, []) := by
    simp [get_google_services, saLookup, hsa]
  refine ⟨?_, ?_, ?_, ?_⟩
  · simp [api_add_record, hr, add_record, hg, unauthorizedWrapped]
  · rcases batch with _ | ⟨a, t⟩
    · exact absurd rfl hb
    · simp [api_add_records, hbv, add_records, hg, unauthorizedWrapped]
  · simp [list_records, hg, unauthorizedWrapped]
  · simp [test_services, hg, unauthorizedWrapped]

/-- Witness for C3 at a concrete record, batch, environment and world. -/
theorem no_credentials_all_ops_unauthorized_witness :
    api_add_record ⟨"Alice", "5A", "12", "Math"⟩ none ⟨none, none, "T"⟩ ⟨[], [], 1⟩
      = (Resp.err 500 unauthorizedWrapped, none, ⟨[], [], 1⟩, []) :=
  (no_credentials_all_ops_unauthorized ⟨"Alice", "5A", "12", "Math"⟩
    [⟨"Alice", "5A", "12", "Math"⟩] ⟨none, none, "T"⟩ ⟨[], [], 1⟩ rfl (by decide)
    (by decide) (by decide)).1

/-- C5: on a well-formed backing state with no intervening external
change, a second `ensure_folder` returns the same folder id as the first,
and a second `ensure_sheet_in_folder` (run on the state the first one
left) returns the same spreadsheet id as the first. -/
theorem ensure_operations_idempotent (w : World) (folder_id : Nat) (hwf : WF w) :
    (ensure_folder (ensure_folder w).2.1).1 = (ensure_folder w).1 ∧
    (ensure_sheet_in_folder (ensure_sheet_in_folder w folder_id).2.1 folder_id).1
      = (ensure_sheet_in_folder w folder_id).1 := by
  constructor
  · cases hq : w.files.filter folderQuery with
    | cons f l => simp [ensure_folder_found w f l hq]
    | nil =>
      rw [ensure_folder_create w hq]
      have hnf : folderQuery (newFolderFile w.nextId) = true := by
        simp [folderQuery, newFolderFile]
      unfold ensure_folder
      simp [List.filter_append, hq, hnf]
      simp [newFolderFile]
  · cases hq : w.files.filter (sheetQuery folder_id) with
    | cons f l => simp [ensure_sheet_found w folder_id f l hq]
    | nil =>
      rw [ensure_sheet_create w folder_id hwf hq]
      have hns : sheetQuery folder_id (newSheetFile w.nextId folder_id) = true := by
        simp [sheetQuery, newSheetFile]
      unfold ensure_sheet_in_folder
      simp [List.filter_append, hq, hns]
      simp [newSheetFile]

/-- Witness for C5 at the empty world. -/
theorem ensure_operations_idempotent_witness :
    (ensure_folder (ensure_folder ⟨[], [], 1⟩).2.1).1 = (ensure_folder ⟨[], [], 1⟩).1 :=
  (ensure_operations_idempotent ⟨[], [], 1⟩ 1 (by decide)).1

/-- C6: a valid non-empty batch of N records answers
`{status: saved, count: N}`, appends exactly the N built rows in one
single append call (the trace holds exactly one append operation,
carrying all N rows), and every appended row carries the same timestamp
`env.now` in its `Saved At` cell. -/
theorem batch_append_count_and_shared_timestamp (batch : List Rec) (oauth : Option UserCred)
    (env : Env) (w : World) (hbv : batch.all recValid = true) (hb : batch ≠ [])
    (hok : ∃ cr, (get_google_services oauth env).1 = Except.ok cr) :
    api_add_records batch oauth env w =
      (Resp.ok ("saved", batch.length),
       (get_google_services oauth env).2.1,
       valuesAppendW (ensure_sheet_in_folder (ensure_folder w).2.1 (ensure_folder w).1).2.1
         (ensure_sheet_in_folder (ensure_folder w).2.1 (ensure_folder w).1).1
         (batch.map (rowOf env.now)),
       (get_google_services oauth env).2.2 ++ (ensure_folder w).2.2
         ++ (ensure_sheet_in_folder (ensure_folder w).2.1 (ensure_folder w).1).2.2
         ++ [Op.valuesAppend (batch.map (rowOf env.now))]) ∧
    (api_add_records batch oauth env w).2.2.2.filter isAppendOp
      = [Op.valuesAppend (batch.map (rowOf env.now))] ∧
    (batch.map (rowOf env.now)).length = batch.length ∧
    ∀ row ∈ batch.map (rowOf env.now), row.getD 4 "" = env.now := by
  obtain ⟨cr, hcr⟩ := hok
  have hmain : api_add_records batch oauth env w =
      (Resp.ok ("saved", batch.length),
       (get_google_services oauth env).2.1,
       valuesAppendW (ensure_sheet_in_folder (ensure_folder w).2.1 (ensure_folder w).1).2.1
         (ensure_sheet_in_folder (ensure_folder w).2.1 (ensure_folder w).1).1
         (batch.map (rowOf env.now)),
       (get_google_services oauth env).2.2 ++ (ensure_folder w).2.2
         ++ (ensure_sheet_in_folder (ensure_folder w).2.1 (ensure_folder w).1).2.2
         ++ [Op.valuesAppend (batch.map (rowOf env.now))]) := by
    rcases batch with _ | ⟨a, t⟩
    · exact absurd rfl hb
    · simp [api_add_records, hbv, add_records, hcr]
  refine ⟨hmain, ?_, List.length_map _ _, ?_⟩
  · rw [hmain]
    simp only []
    simp [List.filter_append, ggs_trace_no_append, ensure_folder_trace_no_append,
      ensure_sheet_trace_no_append, isAppendOp]
  · intro row hrow
    rcases List.mem_map.1 hrow with ⟨r, _, rfl⟩
    rfl

/-- Witness for C6 at a concrete one-record batch. -/
theorem batch_append_count_and_shared_timestamp_witness :
    (api_add_records [⟨"Alice", "5A", "12", "Math"⟩] none ⟨some "SA", none, "T0"⟩
      ⟨[], [], 1⟩).1 = Resp.ok ("saved", 1) := by
  have h := batch_append_count_and_shared_timestamp [⟨"Alice", "5A", "12", "Math"⟩] none
    ⟨some "SA", none, "T0"⟩ ⟨[], [], 1⟩ (by decide) (by decide) ⟨Cred.service, rfl⟩
  rw [h.1]
  rfl

/-- C7: a single-record submission with any empty required field is
rejected by the request validation with a 422 before the handler body
runs: no credential resolution, provisioning or append is traced, and
the backing state and credential slot are unchanged. -/
theorem empty_field_rejected_before_network (r : Rec) (oauth : Option UserCred)
    (env : Env) (w : World)
    (h : r.name = "" ∨ r.klass = "" ∨ r.rollno = "" ∨ r.subject = "") :
    api_add_record r oauth env w = (Resp.err 422 validationDetail, oauth, w, []) := by
  have h0 : minLen1 "" = false := rfl
  have hv : recValid r = false := by
    rcases h with h | h | h | h <;> simp [recValid, h, h0]
  simp [api_add_record, hv]

/-- Witness for C7 at a record with an empty name. -/
theorem empty_field_rejected_before_network_witness :
    api_add_record ⟨"", "5A", "12", "Math"⟩ none ⟨none, none, "T"⟩ ⟨[], [], 1⟩
      = (Resp.err 422 validationDetail, none, ⟨[], [], 1⟩, []) :=
  empty_field_rejected_before_network ⟨"", "5A", "12", "Math"⟩ none ⟨none, none, "T"⟩
    ⟨[], [], 1⟩ (Or.inl rfl)

/-- C8: on a successful credential resolution, `list_records` answers one
item per data row of the provisioned sheet (the grid minus the header, in
physical order), each reconstructed positionally by `padRow`, which fills
every absent trailing cell with the empty string. -/
theorem list_records_positional_reconstruction (oauth : Option UserCred) (env : Env)
    (w : World) (hok : ∃ cr, (get_google_services oauth env).1 = Except.ok cr) :
    (list_records oauth env w).1
      = Resp.ok ((valuesGetData
          (ensure_sheet_in_folder (ensure_folder w).2.1 (ensure_folder w).1).2.1
          (ensure_sheet_in_folder (ensure_folder w).2.1 (ensure_folder w).1).1).map padRow) ∧
    ((valuesGetData
        (ensure_sheet_in_folder (ensure_folder w).2.1 (ensure_folder w).1).2.1
        (ensure_sheet_in_folder (ensure_folder w).2.1 (ensure_folder w).1).1).map padRow).length
      = (valuesGetData
          (ensure_sheet_in_folder (ensure_folder w).2.1 (ensure_folder w).1).2.1
          (ensure_sheet_in_folder (ensure_folder w).2.1 (ensure_folder w).1).1).length ∧
    ∀ row : List String, padRow row
      = ⟨row.getD 0 "", row.getD 1 "", row.getD 2 "", row.getD 3 "", row.getD 4 ""⟩ := by
  obtain ⟨cr, hcr⟩ := hok
  refine ⟨?_, List.length_map _ _, fun _ => rfl⟩
  simp [list_records, hcr]

/-- Witness for C8 at the empty world (freshly provisioned sheet, no data
rows). -/
theorem list_records_positional_reconstruction_witness :
    (list_records none ⟨some "SA", none, "T0"⟩ ⟨[], [], 1⟩).1 = Resp.ok [] := by
  have h := (list_records_positional_reconstruction none ⟨some "SA", none, "T0"⟩
    ⟨[], [], 1⟩ ⟨Cred.service, rfl⟩).1
  rw [h]
  rfl

/-- C9: `auth_status` answers true exactly when a stored credential
exists and its `valid` flag is set, and after `auth_logout` the slot is
cleared so `auth_status` answers false whatever was stored before. -/
theorem status_true_iff_valid_and_false_after_logout :
    (∀ o : Option UserCred, auth_status o = true ↔ ∃ c, o = some c ∧ c.valid = true) ∧
    (∀ o : Option UserCred, auth_status (auth_logout o).1 = false) := by
  constructor
  · intro o
    cases o with
    | none => simp [auth_status]
    | some c => simp [auth_status]
  · intro o; rfl

/-- C10: the OAuth callback's outcome (response and stored credential)
does not depend on the anti-forgery state stored by the login route: the
stored state is read but never compared against the provider's value. -/
theorem callback_ignores_stored_state (s1 s2 : Option String) (cenv : CallbackEnv)
    (oauth : Option UserCred) :
    google_oauth_callback s1 cenv oauth = google_oauth_callback s2 cenv oauth := rfl

end StudentRecords
